import Mathlib

/-!
Verification of the `StickPush` task definition
(`robosuite/environments/manipulation/stick_push.py`).

The development shallowly embeds the task's pure logic: the class
constants, `check_success`, `compute_reward`, `reward`, the observable
sensor closures built in `_setup_observables`, the placement-sampler
construction and reuse logic of `_load_model`, and the state effects of
`_reset_internal`.  Simulator buffers (`body_xpos`, `body_xquat`,
`joint_qpos`, `body_pos`, `body_quat`, `geom_contype`,
`geom_conaffinity`) are modelled as total functions in an explicit
state record; numpy float arrays are modelled over the reals.
-/

namespace StickPush

/-- A 3-vector (a numpy array of length 3), over the reals. -/
structure Vec3 where
  x : ℝ
  y : ℝ
  z : ℝ

instance : Zero Vec3 := ⟨⟨0, 0, 0⟩⟩

instance : Sub Vec3 := ⟨fun a b => ⟨a.x - b.x, a.y - b.y, a.z - b.z⟩⟩

theorem Vec3.sub_def (a b : Vec3) : a - b = ⟨a.x - b.x, a.y - b.y, a.z - b.z⟩ := rfl

theorem Vec3.zero_def : (0 : Vec3) = ⟨0, 0, 0⟩ := rfl

/-- `CUBE_HALFSIZE = 0.025`: half of side length of block. -/
def CUBE_HALFSIZE : ℝ := 0.025

/-- `GOAL_RADIUS = 0.05`: radius of goal circle. -/
def GOAL_RADIUS : ℝ := 0.05

/-- `STICK_HALFLENGTH = 0.06`. -/
def STICK_HALFLENGTH : ℝ := 0.06

/-- `STICK_HALFWIDTH = 0.025`. -/
def STICK_HALFWIDTH : ℝ := 0.025

/-- `STICK_SPAWN_AREA`: x range `[-0.2, -0.08]`, y range `[-0.1, 0.1]`. -/
def STICK_SPAWN_AREA : (ℝ × ℝ) × (ℝ × ℝ) := ((-0.2, -0.08), (-0.1, 0.1))

/-- `CUBE_SPAWN_AREA`: x range `[-0.05, 0]`, y range `[-0.1, 0.1]`. -/
def CUBE_SPAWN_AREA : (ℝ × ℝ) × (ℝ × ℝ) := ((-0.05, 0), (-0.1, 0.1))

/-- `GOAL_SPAWN_AREA`: x range `[0.07, 0.12]`, y range `[-0.1, 0.1]`. -/
def GOAL_SPAWN_AREA : (ℝ × ℝ) × (ℝ × ℝ) := ((0.07, 0.12), (-0.1, 0.1))

/-- `self.table_offset = np.array((0, 0, 0.8))`, set in `__init__`. -/
def table_offset : Vec3 := ⟨0, 0, 0.8⟩

/-- `check_success(self, goal_pos, cube_pos)`:
`np.linalg.norm(goal_pos[:2] - cube_pos[:2]) <= self.GOAL_RADIUS`.
The norm of the planar difference is the square root of the sum of the
squares of the x and y component differences. -/
def check_success (goal_pos cube_pos : Vec3) : Prop :=
  Real.sqrt ((goal_pos.x - cube_pos.x) ^ 2 + (goal_pos.y - cube_pos.y) ^ 2) ≤ GOAL_RADIUS

/-- The info dict passed to `compute_reward` (always `{}` in this file). -/
abbrev Info := List (String × ℝ)

open Classical in
/-- `compute_reward(self, goal_pos, cube_pos, info)`:
`return 0 if self.check_success(goal_pos, cube_pos) else -1`. -/
noncomputable def compute_reward (goal_pos cube_pos : Vec3) (_info : Info) : ℤ :=
  if check_success goal_pos cube_pos then 0 else -1

/-- A quaternion in the simulator's native scalar-first (w, x, y, z)
component ordering, as stored in `sim.data.body_xquat`. -/
structure QuatWXYZ where
  w : ℝ
  x : ℝ
  y : ℝ
  z : ℝ

/-- A quaternion in the vector-first (x, y, z, w) ordering. -/
structure QuatXYZW where
  x : ℝ
  y : ℝ
  z : ℝ
  w : ℝ

/-- Modelled from the spec: `robosuite.utils.transform_utils.convert_quat`
(not under `src/`) with `to="xyzw"` reorders a quaternion from the
simulator's native scalar-first component ordering to a vector-first
convention. -/
def convert_quat (q : QuatWXYZ) : QuatXYZW := ⟨q.x, q.y, q.z, q.w⟩

/-- The slice of MuJoCo simulator state (model and data buffers) that the
task reads and writes.  Buffers are total maps from ids / joint names. -/
structure SimState where
  body_xpos : ℕ → Vec3
  body_xquat : ℕ → QuatWXYZ
  joint_qpos : String → List ℝ
  body_pos : ℕ → Vec3
  body_quat : ℕ → QuatWXYZ
  geom_contype : ℕ → ℕ
  geom_conaffinity : ℕ → ℕ

/-- The references resolved in `_setup_references`: body/geom ids and the
object joint names used by `_reset_internal`. -/
structure EnvRefs where
  cube_body_id : ℕ
  goal_body_id : ℕ
  stick_body_id : ℕ
  gripper_body_id : ℕ
  table_geom_id : ℕ
  gripper_geomadr : ℕ
  gripper_geomnum : ℕ
  cube_contact_geoms : List ℕ
  stick_contact_geoms : List ℕ
  cube_joint : String
  stick_joint : String

/-- `reward(self, action=None)`: forwards the goal and cube body positions
read from `sim.data.body_xpos` to `compute_reward` with an empty info
dict; the `action` argument is unused. -/
noncomputable def reward (env : EnvRefs) (st : SimState)
    (_action : Option (List ℝ) := none) : ℤ :=
  compute_reward (st.body_xpos env.goal_body_id) (st.body_xpos env.cube_body_id) []

/-- The per-step observation cache (`obs_cache`): a dict from sensor name
to an already-computed 3-vector value; `none` models an absent key. -/
abbrev ObsCache := String → Option Vec3

/-- Sensor `cube_pos(obs_cache)`: the cube body's absolute position. -/
def cube_pos (env : EnvRefs) (st : SimState) (_obs_cache : ObsCache) : Vec3 :=
  st.body_xpos env.cube_body_id

/-- Sensor `goal_pos(obs_cache)`: the goal body's absolute position. -/
def goal_pos (env : EnvRefs) (st : SimState) (_obs_cache : ObsCache) : Vec3 :=
  st.body_xpos env.goal_body_id

/-- Sensor `stick_pos(obs_cache)`: the stick body's absolute position. -/
def stick_pos (env : EnvRefs) (st : SimState) (_obs_cache : ObsCache) : Vec3 :=
  st.body_xpos env.stick_body_id

/-- Sensor `stick_quat(obs_cache)`:
`convert_quat(np.array(self.sim.data.body_xquat[self.stick_body_id]), to="xyzw")`. -/
def stick_quat (env : EnvRefs) (st : SimState) : QuatXYZW :=
  convert_quat (st.body_xquat env.stick_body_id)

/-- Sensor `gripper_to_cube_pos(obs_cache)`: `obs_cache[f"{pf}eef_pos"] -
obs_cache["cube_pos"]` when both keys are in the cache, else `np.zeros(3)`. -/
def gripper_to_cube_pos (pf : String) (obs_cache : ObsCache) : Vec3 :=
  match obs_cache (pf ++ "eef_pos"), obs_cache "cube_pos" with
  | some e, some c => e - c
  | _, _ => 0

/-- Sensor `gripper_to_goal_pos(obs_cache)`: `obs_cache[f"{pf}eef_pos"] -
obs_cache["goal_pos"]` when both keys are in the cache, else `np.zeros(3)`. -/
def gripper_to_goal_pos (pf : String) (obs_cache : ObsCache) : Vec3 :=
  match obs_cache (pf ++ "eef_pos"), obs_cache "goal_pos" with
  | some e, some g => e - g
  | _, _ => 0

/-- Sensor `cube_to_goal_pos(obs_cache)`: `obs_cache["cube_pos"] -
obs_cache["goal_pos"]` when both keys are in the cache, else `np.zeros(3)`. -/
def cube_to_goal_pos (obs_cache : ObsCache) : Vec3 :=
  match obs_cache "cube_pos", obs_cache "goal_pos" with
  | some c, some g => c - g
  | _, _ => 0

/-- Sensor `gripper_to_stick_pos(obs_cache)`: `obs_cache[f"{pf}eef_pos"] -
obs_cache["stick_pos"]` when both keys are in the cache, else `np.zeros(3)`. -/
def gripper_to_stick_pos (pf : String) (obs_cache : ObsCache) : Vec3 :=
  match obs_cache (pf ++ "eef_pos"), obs_cache "stick_pos" with
  | some e, some s => e - s
  | _, _ => 0

/-- Sensor `stick_to_cube_pos(obs_cache)`: `obs_cache["stick_pos"] -
obs_cache["cube_pos"]` when both keys are in the cache, else `np.zeros(3)`. -/
def stick_to_cube_pos (obs_cache : ObsCache) : Vec3 :=
  match obs_cache "stick_pos", obs_cache "cube_pos" with
  | some s, some c => s - c
  | _, _ => 0

/-- Sensor `stick_to_goal_pos(obs_cache)`: `obs_cache["stick_pos"] -
obs_cache["goal_pos"]` when both keys are in the cache, else `np.zeros(3)`. -/
def stick_to_goal_pos (obs_cache : ObsCache) : Vec3 :=
  match obs_cache "stick_pos", obs_cache "goal_pos" with
  | some s, some g => s - g
  | _, _ => 0

/-- A `UniformRandomSampler` as configured by `_load_model`: its
constructor arguments, with the object list holding object names. -/
structure UniformRandomSampler where
  name : String
  mujoco_objects : List String
  x_range : ℝ × ℝ
  y_range : ℝ × ℝ
  rotation : ℝ
  ensure_object_boundary_in_range : Bool
  ensure_valid_placement : Bool
  reference_pos : Vec3
  z_offset : ℝ

/-- Modelled from the spec: `UniformRandomSampler.reset` (not under
`src/`) clears the sampler's object list; the sampler's configuration is
preserved ("existing samplers are reset and object lists repopulated
rather than recreated, preserving sampler configuration"). -/
def UniformRandomSampler.reset (s : UniformRandomSampler) : UniformRandomSampler :=
  { s with mujoco_objects := [] }

/-- Modelled from the spec: `UniformRandomSampler.add_objects` (not under
`src/`) appends objects to the sampler's object list. -/
def UniformRandomSampler.add_objects (s : UniformRandomSampler)
    (objs : List String) : UniformRandomSampler :=
  { s with mujoco_objects := s.mujoco_objects ++ objs }

/-- Modelled from the spec: a `UniformRandomSampler` draws a position
uniformly at random within its rectangular (x, y) ranges, offset by its
reference origin, at `z_offset` above the reference origin's z ("each
object placed within its own fixed 2D rectangle on the table surface,
with a fixed z-offset of 1mm above the table", "uniform-random placement
sampler with configuration options {spatial range per axis, ...,
reference origin, z-offset}").  The random draw is modelled by unit
coordinates `u, v ∈ [0, 1]` picking a point of the rectangle. -/
def UniformRandomSampler.samplePos (s : UniformRandomSampler) (u v : ℝ) : Vec3 :=
  ⟨s.reference_pos.x + (s.x_range.1 + u * (s.x_range.2 - s.x_range.1)),
   s.reference_pos.y + (s.y_range.1 + v * (s.y_range.2 - s.y_range.1)),
   s.reference_pos.z + s.z_offset⟩

/-- The `UniformRandomSampler` built for the cube on first `_load_model`. -/
def mkCubeSampler : UniformRandomSampler :=
  { name := "CubeSampler"
    mujoco_objects := ["cube"]
    x_range := CUBE_SPAWN_AREA.1
    y_range := CUBE_SPAWN_AREA.2
    rotation := 0
    ensure_object_boundary_in_range := true
    ensure_valid_placement := true
    reference_pos := table_offset
    z_offset := 0.001 }

/-- The `UniformRandomSampler` built for the goal on first `_load_model`. -/
def mkGoalSampler : UniformRandomSampler :=
  { name := "GoalSampler"
    mujoco_objects := ["goal"]
    x_range := GOAL_SPAWN_AREA.1
    y_range := GOAL_SPAWN_AREA.2
    rotation := 0
    ensure_object_boundary_in_range := true
    ensure_valid_placement := true
    reference_pos := table_offset
    z_offset := 0.001 }

/-- The `UniformRandomSampler` built for the stick on first `_load_model`. -/
def mkStickSampler : UniformRandomSampler :=
  { name := "StickSampler"
    mujoco_objects := ["stick"]
    x_range := STICK_SPAWN_AREA.1
    y_range := STICK_SPAWN_AREA.2
    rotation := 0
    ensure_object_boundary_in_range := true
    ensure_valid_placement := true
    reference_pos := table_offset
    z_offset := 0.001 }

/-- The sampler logic of `_load_model` for one object: if the initializer
already exists it is reset and the new object added to its list
(`self.X_initializer.reset(); self.X_initializer.add_objects(obj)`),
otherwise a fresh `UniformRandomSampler` is constructed. -/
def load_model_sampler (existing : Option UniformRandomSampler)
    (fresh : UniformRandomSampler) (obj : String) : UniformRandomSampler :=
  match existing with
  | some s => (s.reset).add_objects [obj]
  | none => fresh

/-- A single store into an id-indexed simulator buffer,
`buf[i] = v` for a buffer modelled as a total function. -/
def store {α : Type} (buf : ℕ → α) (i : ℕ) (v : α) : ℕ → α :=
  fun j => if j = i then v else buf j

/-- The collision-bitmask section at the top of `_reset_internal`:
for every contact geom of the cube and the stick, `geom_contype` and
`geom_conaffinity` are set to `0b100`; then `geom_contype` of every geom
of the gripper body (ids `body_geomadr .. body_geomadr + body_geomnum - 1`)
is set to `0b111`; then `geom_contype` of the table geom is set to
`0b111`.  `geom_conaffinity` is written only in the first loop. -/
def reset_internal_masks (env : EnvRefs) (st : SimState) : SimState :=
  let st1 := (env.cube_contact_geoms ++ env.stick_contact_geoms).foldl
    (fun s g =>
      { s with geom_contype := store s.geom_contype g 4
               geom_conaffinity := store s.geom_conaffinity g 4 }) st
  let st2 := (List.range env.gripper_geomnum).foldl
    (fun s i =>
      { s with geom_contype := store s.geom_contype (i + env.gripper_geomadr) 7 }) st1
  { st2 with geom_contype := store st2.geom_contype env.table_geom_id 7 }

/-- A placement returned by a sampler for one object: `(pos, quat, obj)`
with the object reference dropped. -/
structure Placement where
  pos : Vec3
  quat : QuatWXYZ

/-- The free-joint qpos written by `set_joint_qpos`:
`np.concatenate([np.array(pos), np.array(quat)])`, a 3-vector position
followed by a scalar-first quaternion. -/
def jointQpos (p : Placement) : List ℝ :=
  [p.pos.x, p.pos.y, p.pos.z, p.quat.w, p.quat.x, p.quat.y, p.quat.z]

/-- `_reset_internal`: after the collision-bitmask adjustment, when not
doing a deterministic reset, (1) samples a cube placement and writes it
into the cube's free-joint qpos, (2) samples a stick placement passing
the cube placement as `fixtures` and writes it into the stick's
free-joint qpos, (3) samples a goal placement (no fixtures) and writes
its position and quaternion into `model.body_pos` / `model.body_quat` at
the goal body id.  The three samplers are modelled as the functions
`cubeSample` (no fixtures argument), `stickSample` (taking the optional
fixtures), `goalSample` (no fixtures argument). -/
def reset_internal (env : EnvRefs)
    (cubeSample : Unit → Placement)
    (stickSample : Option Placement → Placement)
    (goalSample : Unit → Placement)
    (deterministic_reset : Bool) (st : SimState) : SimState :=
  let st := reset_internal_masks env st
  if deterministic_reset then st
  else
    let cube_placement := cubeSample ()
    let st := { st with joint_qpos :=
      fun j => if j = env.cube_joint then jointQpos cube_placement else st.joint_qpos j }
    let stick_placement := stickSample (some cube_placement)
    let st := { st with joint_qpos :=
      fun j => if j = env.stick_joint then jointQpos stick_placement else st.joint_qpos j }
    let goal_placement := goalSample ()
    { st with body_pos := store st.body_pos env.goal_body_id goal_placement.pos
              body_quat := store st.body_quat env.goal_body_id goal_placement.quat }

/-- The planar (x, y) projection of a 3-vector, into the Euclidean plane;
`goal_pos[:2]` and `cube_pos[:2]` in `check_success`. -/
noncomputable def planar (p : Vec3) : EuclideanSpace ℝ (Fin 2) := ![p.x, p.y]

/-- The identity quaternion in scalar-first ordering. -/
def quatId : QuatWXYZ := ⟨1, 0, 0, 0⟩

/-- A concrete simulator state used to instantiate theorems. -/
def stZero : SimState :=
  { body_xpos := fun _ => 0
    body_xquat := fun _ => quatId
    joint_qpos := fun _ => []
    body_pos := fun _ => 0
    body_quat := fun _ => quatId
    geom_contype := fun _ => 1
    geom_conaffinity := fun _ => 1 }

/-- A concrete reference table used to instantiate theorems: distinct
body ids, one gripper geom at id 5, cube contact geom 6, stick contact
geom 7, table geom 4. -/
def envW : EnvRefs :=
  { cube_body_id := 0
    goal_body_id := 1
    stick_body_id := 2
    gripper_body_id := 3
    table_geom_id := 4
    gripper_geomadr := 5
    gripper_geomnum := 1
    cube_contact_geoms := [6]
    stick_contact_geoms := [7]
    cube_joint := "cube_joint0"
    stick_joint := "stick_joint0" }

/-- A concrete simulator state whose stick-body quaternion buffer holds
the scalar-first components (1, 2, 3, 4). -/
def stQ : SimState := { stZero with body_xquat := fun _ => ⟨1, 2, 3, 4⟩ }

/-- A concrete placement used to instantiate theorems. -/
def placeA : Placement := ⟨⟨1, 2, 3⟩, quatId⟩

/-- A concrete placement used to instantiate theorems. -/
def placeB : Placement := ⟨⟨4, 5, 6⟩, quatId⟩

/-- A concrete placement used to instantiate theorems. -/
def placeC : Placement := ⟨⟨7, 8, 9⟩, quatId⟩

/-! ## Helper lemmas -/

/-- The Euclidean distance of the planar projections is the square root
of the sum of the squared x and y component differences. -/
theorem planar_dist (g c : Vec3) :
    dist (planar g) (planar c) = Real.sqrt ((g.x - c.x) ^ 2 + (g.y - c.y) ^ 2) := by
  rw [EuclideanSpace.dist_eq]
  simp [planar, Fin.sum_univ_two, Real.dist_eq, sq_abs]

/-- A convex combination `lo + u * (hi - lo)` with `u ∈ [0, 1]` stays in
`[lo, hi]`. -/
theorem lerp_mem {lo hi u : ℝ} (hu0 : 0 ≤ u) (hu1 : u ≤ 1) (h : lo ≤ hi) :
    lo ≤ lo + u * (hi - lo) ∧ lo + u * (hi - lo) ≤ hi := by
  constructor <;> nlinarith

/-- The cube/stick loop of `_reset_internal` pointwise: `geom_contype`
becomes 4 on the listed geoms and is untouched elsewhere. -/
theorem masks_fold1_contype (l : List ℕ) (st : SimState) (x : ℕ) :
    ((l.foldl (fun s g => { s with geom_contype := store s.geom_contype g 4, geom_conaffinity := store s.geom_conaffinity g 4 }) st).geom_contype) x
      = if x ∈ l then 4 else st.geom_contype x := by
  induction l generalizing st with
  | nil => simp
  | cons a t ih =>
    simp only [List.foldl_cons, ih, store, List.mem_cons]
    by_cases h : x ∈ t <;> by_cases h2 : x = a <;> simp [h, h2]

/-- The cube/stick loop of `_reset_internal` pointwise: `geom_conaffinity`
becomes 4 on the listed geoms and is untouched elsewhere. -/
theorem masks_fold1_conaffinity (l : List ℕ) (st : SimState) (x : ℕ) :
    ((l.foldl (fun s g => { s with geom_contype := store s.geom_contype g 4, geom_conaffinity := store s.geom_conaffinity g 4 }) st).geom_conaffinity) x
      = if x ∈ l then 4 else st.geom_conaffinity x := by
  induction l generalizing st with
  | nil => simp
  | cons a t ih =>
    simp only [List.foldl_cons, ih, store, List.mem_cons]
    by_cases h : x ∈ t <;> by_cases h2 : x = a <;> simp [h, h2]

/-- The gripper loop of `_reset_internal` pointwise: `geom_contype`
becomes 7 on the gripper's geom id range and is untouched elsewhere. -/
theorem masks_fold2_contype (n adr : ℕ) (st : SimState) (x : ℕ) :
    (((List.range n).foldl
        (fun s i => { s with geom_contype := store s.geom_contype (i + adr) 7 }) st).geom_contype) x
      = if adr ≤ x ∧ x < adr + n then 7 else st.geom_contype x := by
  induction n generalizing st with
  | zero =>
    simp only [List.range_zero, List.foldl_nil]
    split_ifs <;> first | rfl | omega
  | succ n ih =>
    rw [List.range_succ, List.foldl_append]
    simp only [List.foldl_cons, List.foldl_nil, ih, store]
    split_ifs <;> first | rfl | omega

/-- The gripper loop of `_reset_internal` does not write `geom_conaffinity`. -/
theorem masks_fold2_conaffinity (n adr : ℕ) (st : SimState) (x : ℕ) :
    (((List.range n).foldl
        (fun s i => { s with geom_contype := store s.geom_contype (i + adr) 7 }) st).geom_conaffinity) x
      = st.geom_conaffinity x := by
  induction n generalizing st with
  | zero => simp
  | succ n ih =>
    rw [List.range_succ, List.foldl_append]
    simp only [List.foldl_cons, List.foldl_nil, ih]

/-- Pointwise value of `geom_conaffinity` after the collision-bitmask
section of `_reset_internal`: 4 on cube/stick contact geoms, otherwise
the previous value. -/
theorem reset_internal_masks_conaffinity (env : EnvRefs) (st : SimState) (x : ℕ) :
    (reset_internal_masks env st).geom_conaffinity x
      = if x ∈ env.cube_contact_geoms ++ env.stick_contact_geoms then 4
        else st.geom_conaffinity x := by
  simp only [reset_internal_masks, masks_fold2_conaffinity, masks_fold1_conaffinity]

/-- Pointwise value of `geom_contype` after the collision-bitmask section
of `_reset_internal`: 7 on the table geom and the gripper's geom range,
else 4 on cube/stick contact geoms, else the previous value. -/
theorem reset_internal_masks_contype (env : EnvRefs) (st : SimState) (x : ℕ) :
    (reset_internal_masks env st).geom_contype x
      = if x = env.table_geom_id then 7
        else if env.gripper_geomadr ≤ x ∧ x < env.gripper_geomadr + env.gripper_geomnum then 7
        else if x ∈ env.cube_contact_geoms ++ env.stick_contact_geoms then 4
        else st.geom_contype x := by
  simp only [reset_internal_masks, store, masks_fold2_contype, masks_fold1_contype]

/-- Folding state updates that only touch the geom mask buffers leaves
every other simulator buffer unchanged. -/
theorem foldl_geom_update_frame {α : Type} (f : SimState → α → SimState)
    (hf : ∀ s a, (f s a).joint_qpos = s.joint_qpos ∧ (f s a).body_pos = s.body_pos ∧
      (f s a).body_quat = s.body_quat ∧ (f s a).body_xpos = s.body_xpos ∧
      (f s a).body_xquat = s.body_xquat)
    (l : List α) (st : SimState) :
    (l.foldl f st).joint_qpos = st.joint_qpos ∧ (l.foldl f st).body_pos = st.body_pos ∧
      (l.foldl f st).body_quat = st.body_quat ∧ (l.foldl f st).body_xpos = st.body_xpos ∧
      (l.foldl f st).body_xquat = st.body_xquat := by
  induction l generalizing st with
  | nil => exact ⟨rfl, rfl, rfl, rfl, rfl⟩
  | cons a t ih =>
    simp only [List.foldl_cons]
    obtain ⟨h1, h2, h3, h4, h5⟩ := ih (f st a)
    obtain ⟨g1, g2, g3, g4, g5⟩ := hf st a
    exact ⟨h1.trans g1, h2.trans g2, h3.trans g3, h4.trans g4, h5.trans g5⟩

/-- The collision-bitmask section of `_reset_internal` does not touch the
joint, pose or kinematic buffers. -/
theorem reset_internal_masks_frame (env : EnvRefs) (st : SimState) :
    (reset_internal_masks env st).joint_qpos = st.joint_qpos ∧
      (reset_internal_masks env st).body_pos = st.body_pos ∧
      (reset_internal_masks env st).body_quat = st.body_quat ∧
      (reset_internal_masks env st).body_xpos = st.body_xpos ∧
      (reset_internal_masks env st).body_xquat = st.body_xquat := by
  unfold reset_internal_masks
  have h1 := foldl_geom_update_frame
    (fun s g => { s with geom_contype := store s.geom_contype g 4, geom_conaffinity := store s.geom_conaffinity g 4 })
    (fun _ _ => ⟨rfl, rfl, rfl, rfl, rfl⟩)
    (env.cube_contact_geoms ++ env.stick_contact_geoms) st
  have h2 := foldl_geom_update_frame
    (fun s i => { s with geom_contype := store s.geom_contype (i + env.gripper_geomadr) 7 })
    (fun _ _ => ⟨rfl, rfl, rfl, rfl, rfl⟩)
    (List.range env.gripper_geomnum)
    ((env.cube_contact_geoms ++ env.stick_contact_geoms).foldl
      (fun s g => { s with geom_contype := store s.geom_contype g 4, geom_conaffinity := store s.geom_conaffinity g 4 }) st)
  exact ⟨h2.1.trans h1.1, h2.2.1.trans h1.2.1, h2.2.2.1.trans h1.2.2.1,
    h2.2.2.2.1.trans h1.2.2.2.1, h2.2.2.2.2.trans h1.2.2.2.2⟩

/-! ## Claim theorems -/

/-- C1: `check_success goal_pos cube_pos` holds iff the Euclidean
distance between the (x, y) projections of the two points is at most the
goal radius 0.05; the comparison is boundary-inclusive (distance exactly
`GOAL_RADIUS` yields success), and the z components have no effect. -/
theorem check_success_planar_dist (g c : Vec3) :
    (check_success g c ↔ dist (planar g) (planar c) ≤ GOAL_RADIUS) ∧
    (dist (planar g) (planar c) = GOAL_RADIUS → check_success g c) ∧
    (∀ z₁ z₂ : ℝ, check_success ⟨g.x, g.y, z₁⟩ ⟨c.x, c.y, z₂⟩ ↔ check_success g c) := by
  refine ⟨by rw [check_success, planar_dist], ?_, fun z₁ z₂ => Iff.rfl⟩
  intro h
  rw [check_success, ← planar_dist, h]

/-- C2: `compute_reward goal_pos cube_pos info` does not depend on
`info`, returns 0 exactly when `check_success` holds and −1 exactly when
it does not, so its value is always 0 or −1. -/
theorem compute_reward_sparse (g c : Vec3) (i i' : Info) :
    (compute_reward g c i = compute_reward g c i') ∧
    (check_success g c → compute_reward g c i = 0) ∧
    (¬ check_success g c → compute_reward g c i = -1) ∧
    (compute_reward g c i = 0 ∨ compute_reward g c i = -1) := by
  by_cases h : check_success g c <;> simp [compute_reward, h]

/-- C3: `reward action` returns the same value for every action
argument: it ignores the action and returns `compute_reward` applied to
the goal body's and the cube body's current absolute positions read from
`sim.data.body_xpos`, with an empty info dict. -/
theorem reward_ignores_action (env : EnvRefs) (st : SimState)
    (a b : Option (List ℝ)) :
    (reward env st a = reward env st b) ∧
    (reward env st a = reward env st) ∧
    (reward env st a
      = compute_reward (st.body_xpos env.goal_body_id) (st.body_xpos env.cube_body_id) []) :=
  ⟨rfl, rfl, rfl⟩

/-- C4: each of the six relative-displacement sensors returns the zero
3-vector when at least one of its two dependency keys is absent from the
observation cache, and the difference of the two cached values when both
are present. -/
theorem relative_sensors_missing_keys (pf : String) (cache : ObsCache) :
    ((cache (pf ++ "eef_pos") = none ∨ cache "cube_pos" = none) →
        gripper_to_cube_pos pf cache = 0) ∧
    (∀ e c, cache (pf ++ "eef_pos") = some e → cache "cube_pos" = some c →
        gripper_to_cube_pos pf cache = e - c) ∧
    ((cache (pf ++ "eef_pos") = none ∨ cache "goal_pos" = none) →
        gripper_to_goal_pos pf cache = 0) ∧
    (∀ e g, cache (pf ++ "eef_pos") = some e → cache "goal_pos" = some g →
        gripper_to_goal_pos pf cache = e - g) ∧
    ((cache "cube_pos" = none ∨ cache "goal_pos" = none) →
        cube_to_goal_pos cache = 0) ∧
    (∀ c g, cache "cube_pos" = some c → cache "goal_pos" = some g →
        cube_to_goal_pos cache = c - g) ∧
    ((cache (pf ++ "eef_pos") = none ∨ cache "stick_pos" = none) →
        gripper_to_stick_pos pf cache = 0) ∧
    (∀ e s, cache (pf ++ "eef_pos") = some e → cache "stick_pos" = some s →
        gripper_to_stick_pos pf cache = e - s) ∧
    ((cache "stick_pos" = none ∨ cache "cube_pos" = none) →
        stick_to_cube_pos cache = 0) ∧
    (∀ s c, cache "stick_pos" = some s → cache "cube_pos" = some c →
        stick_to_cube_pos cache = s - c) ∧
    ((cache "stick_pos" = none ∨ cache "goal_pos" = none) →
        stick_to_goal_pos cache = 0) ∧
    (∀ s g, cache "stick_pos" = some s → cache "goal_pos" = some g →
        stick_to_goal_pos cache = s - g) := by
  refine ⟨?_, ?_, ?_, ?_, ?_, ?_, ?_, ?_, ?_, ?_, ?_, ?_⟩
  · intro h
    cases h1 : cache (pf ++ "eef_pos") <;> cases h2 : cache "cube_pos" <;>
      simp_all [gripper_to_cube_pos]
  · intro e c h1 h2
    simp [gripper_to_cube_pos, h1, h2]
  · intro h
    cases h1 : cache (pf ++ "eef_pos") <;> cases h2 : cache "goal_pos" <;>
      simp_all [gripper_to_goal_pos]
  · intro e g h1 h2
    simp [gripper_to_goal_pos, h1, h2]
  · intro h
    cases h1 : cache "cube_pos" <;> cases h2 : cache "goal_pos" <;>
      simp_all [cube_to_goal_pos]
  · intro c g h1 h2
    simp [cube_to_goal_pos, h1, h2]
  · intro h
    cases h1 : cache (pf ++ "eef_pos") <;> cases h2 : cache "stick_pos" <;>
      simp_all [gripper_to_stick_pos]
  · intro e s h1 h2
    simp [gripper_to_stick_pos, h1, h2]
  · intro h
    cases h1 : cache "stick_pos" <;> cases h2 : cache "cube_pos" <;>
      simp_all [stick_to_cube_pos]
  · intro s c h1 h2
    simp [stick_to_cube_pos, h1, h2]
  · intro h
    cases h1 : cache "stick_pos" <;> cases h2 : cache "goal_pos" <;>
      simp_all [stick_to_goal_pos]
  · intro s g h1 h2
    simp [stick_to_goal_pos, h1, h2]

/-- C10: the directional convention of the relative sensors — each
`gripper_to_X_pos` returns end-effector position minus object position,
`cube_to_goal_pos` returns cube minus goal, `stick_to_cube_pos` stick
minus cube, `stick_to_goal_pos` stick minus goal; hence
`stick_to_goal_pos - stick_to_cube_pos = cube_to_goal_pos` whenever the
three absolute positions are all cached. -/
theorem relative_sensor_directions (pf : String) (cache : ObsCache) :
    (∀ e c, cache (pf ++ "eef_pos") = some e → cache "cube_pos" = some c →
        gripper_to_cube_pos pf cache = e - c) ∧
    (∀ e g, cache (pf ++ "eef_pos") = some e → cache "goal_pos" = some g →
        gripper_to_goal_pos pf cache = e - g) ∧
    (∀ e s, cache (pf ++ "eef_pos") = some e → cache "stick_pos" = some s →
        gripper_to_stick_pos pf cache = e - s) ∧
    (∀ c g, cache "cube_pos" = some c → cache "goal_pos" = some g →
        cube_to_goal_pos cache = c - g) ∧
    (∀ s c, cache "stick_pos" = some s → cache "cube_pos" = some c →
        stick_to_cube_pos cache = s - c) ∧
    (∀ s g, cache "stick_pos" = some s → cache "goal_pos" = some g →
        stick_to_goal_pos cache = s - g) ∧
    (∀ s c g, cache "stick_pos" = some s → cache "cube_pos" = some c →
        cache "goal_pos" = some g →
        stick_to_goal_pos cache - stick_to_cube_pos cache = cube_to_goal_pos cache) := by
  refine ⟨?_, ?_, ?_, ?_, ?_, ?_, ?_⟩
  · intro e c h1 h2
    simp [gripper_to_cube_pos, h1, h2]
  · intro e g h1 h2
    simp [gripper_to_goal_pos, h1, h2]
  · intro e s h1 h2
    simp [gripper_to_stick_pos, h1, h2]
  · intro c g h1 h2
    simp [cube_to_goal_pos, h1, h2]
  · intro s c h1 h2
    simp [stick_to_cube_pos, h1, h2]
  · intro s g h1 h2
    simp [stick_to_goal_pos, h1, h2]
  · intro s c g hs hc hg
    simp only [stick_to_goal_pos, stick_to_cube_pos, cube_to_goal_pos, hs, hc, hg]
    simp only [Vec3.sub_def, Vec3.mk.injEq]
    refine ⟨by ring, by ring, by ring⟩

/-- C5: on a stochastic (non-deterministic) reset, `_reset_internal`
writes the sampled cube pose into the cube's free-joint qpos, writes the
stick pose — sampled with the cube's placement passed as fixtures — into
the stick's free-joint qpos, writes the independently sampled (fixture-free)
goal pose into the goal body's fixed pose fields `body_pos` / `body_quat`,
and touches no other joint and no other body's fixed pose. -/
theorem reset_internal_stochastic_effects (env : EnvRefs)
    (cubeSample : Unit → Placement) (stickSample : Option Placement → Placement)
    (goalSample : Unit → Placement) (st : SimState)
    (hj : env.cube_joint ≠ env.stick_joint) :
    ((reset_internal env cubeSample stickSample goalSample false st).joint_qpos
        env.cube_joint = jointQpos (cubeSample ())) ∧
    ((reset_internal env cubeSample stickSample goalSample false st).joint_qpos
        env.stick_joint = jointQpos (stickSample (some (cubeSample ())))) ∧
    ((reset_internal env cubeSample stickSample goalSample false st).body_pos
        env.goal_body_id = (goalSample ()).pos) ∧
    ((reset_internal env cubeSample stickSample goalSample false st).body_quat
        env.goal_body_id = (goalSample ()).quat) ∧
    (∀ j, j ≠ env.cube_joint → j ≠ env.stick_joint →
        (reset_internal env cubeSample stickSample goalSample false st).joint_qpos j
          = st.joint_qpos j) ∧
    (∀ b, b ≠ env.goal_body_id →
        (reset_internal env cubeSample stickSample goalSample false st).body_pos b
            = st.body_pos b ∧
          (reset_internal env cubeSample stickSample goalSample false st).body_quat b
            = st.body_quat b) := by
  obtain ⟨hq, hp, hu, -, -⟩ := reset_internal_masks_frame env st
  simp only [reset_internal, Bool.false_eq_true, if_false, store, hq, hp, hu]
  refine ⟨by simp [hj], by simp, by simp, by simp, ?_, ?_⟩
  · intro j h1 h2
    simp [h1, h2]
  · intro b hb
    simp [hb]

/-- C5 witness: the reset effects evaluated at a concrete reference
table, state and sampler triple with distinct joint names. -/
theorem reset_internal_stochastic_effects_witness :
    envW.cube_joint ≠ envW.stick_joint ∧
    (((reset_internal envW (fun _ => placeA) (fun _ => placeB) (fun _ => placeC)
        false stZero).joint_qpos envW.cube_joint = jointQpos placeA) ∧
    ((reset_internal envW (fun _ => placeA) (fun _ => placeB) (fun _ => placeC)
        false stZero).joint_qpos envW.stick_joint = jointQpos placeB) ∧
    ((reset_internal envW (fun _ => placeA) (fun _ => placeB) (fun _ => placeC)
        false stZero).body_pos envW.goal_body_id = placeC.pos) ∧
    ((reset_internal envW (fun _ => placeA) (fun _ => placeB) (fun _ => placeC)
        false stZero).body_quat envW.goal_body_id = placeC.quat) ∧
    (∀ j, j ≠ envW.cube_joint → j ≠ envW.stick_joint →
        (reset_internal envW (fun _ => placeA) (fun _ => placeB) (fun _ => placeC)
          false stZero).joint_qpos j = stZero.joint_qpos j) ∧
    (∀ b, b ≠ envW.goal_body_id →
        (reset_internal envW (fun _ => placeA) (fun _ => placeB) (fun _ => placeC)
            false stZero).body_pos b = stZero.body_pos b ∧
          (reset_internal envW (fun _ => placeA) (fun _ => placeB) (fun _ => placeC)
            false stZero).body_quat b = stZero.body_quat b)) :=
  ⟨by decide, reset_internal_stochastic_effects envW (fun _ => placeA)
    (fun _ => placeB) (fun _ => placeC) stZero (by decide)⟩

/-- C6 counterexample: the claim says the gripper's geoms and the table
geom get both `contype` and `conaffinity` masks that enable all layers,
but `_reset_internal` never writes `geom_conaffinity` for them: on a
state whose conaffinity masks are all `0b001`, the gripper geom (id 5 of
`envW`) still has conaffinity 1 after the reset, which does not enable
all of the three layers `0b111`. -/
theorem reset_internal_gripper_conaffinity_cex :
    (reset_internal_masks envW stZero).geom_conaffinity 5 = 1 ∧
      ¬ ((1 : ℕ) &&& 7 = 7) ∧
      (reset_internal_masks envW stZero).geom_conaffinity envW.table_geom_id = 1 := by
  refine ⟨?_, by decide, ?_⟩ <;>
    simp [reset_internal_masks_conaffinity, envW, stZero]

/-- C6 (amended): on every reset, `_reset_internal` gives every contact
geom of the cube and the stick `contype` and `conaffinity` masks equal to
the distinct layer `0b100` (the contype provided the geom is not also a
gripper or table geom), gives every geom of the gripper body and the
table's collision geom a `contype` mask enabling all layers (`0b111`),
and leaves the `conaffinity` masks of all other geoms — the gripper's and
the table's included — unchanged. -/
theorem reset_internal_masks_spec (env : EnvRefs) (st : SimState) :
    (∀ g ∈ env.cube_contact_geoms ++ env.stick_contact_geoms,
        (reset_internal_masks env st).geom_conaffinity g = 4 ∧
        ((∀ i < env.gripper_geomnum, g ≠ i + env.gripper_geomadr) →
          g ≠ env.table_geom_id →
          (reset_internal_masks env st).geom_contype g = 4)) ∧
    (∀ i < env.gripper_geomnum,
        (reset_internal_masks env st).geom_contype (i + env.gripper_geomadr) = 7) ∧
    ((reset_internal_masks env st).geom_contype env.table_geom_id = 7) ∧
    (∀ g, g ∉ env.cube_contact_geoms ++ env.stick_contact_geoms →
        (reset_internal_masks env st).geom_conaffinity g = st.geom_conaffinity g) := by
  refine ⟨?_, ?_, ?_, ?_⟩
  · intro g hg
    refine ⟨by simp [reset_internal_masks_conaffinity, hg], ?_⟩
    intro hgr htab
    rw [reset_internal_masks_contype]
    have hrange : ¬ (env.gripper_geomadr ≤ g ∧ g < env.gripper_geomadr + env.gripper_geomnum) := by
      rintro ⟨hlo, hhi⟩
      exact hgr (g - env.gripper_geomadr) (by omega) (by omega)
    simp [htab, hrange, hg]
  · intro i hi
    rw [reset_internal_masks_contype]
    split_ifs <;> first | rfl | omega
  · rw [reset_internal_masks_contype]
    simp
  · intro g hg
    simp [reset_internal_masks_conaffinity, hg]

/-- A sampler with ordered x and y ranges draws positions inside its
rectangle offset by its reference origin, at `z_offset` above it. -/
theorem samplePos_in_ranges (s : UniformRandomSampler) {u v : ℝ}
    (hu0 : 0 ≤ u) (hu1 : u ≤ 1) (hv0 : 0 ≤ v) (hv1 : v ≤ 1)
    (hx : s.x_range.1 ≤ s.x_range.2) (hy : s.y_range.1 ≤ s.y_range.2) :
    s.reference_pos.x + s.x_range.1 ≤ (s.samplePos u v).x ∧
      (s.samplePos u v).x ≤ s.reference_pos.x + s.x_range.2 ∧
      s.reference_pos.y + s.y_range.1 ≤ (s.samplePos u v).y ∧
      (s.samplePos u v).y ≤ s.reference_pos.y + s.y_range.2 ∧
      (s.samplePos u v).z = s.reference_pos.z + s.z_offset := by
  have hxm := lerp_mem hu0 hu1 hx
  have hym := lerp_mem hv0 hv1 hy
  simp only [UniformRandomSampler.samplePos]
  exact ⟨by linarith [hxm.1], by linarith [hxm.2], by linarith [hym.1],
    by linarith [hym.2], by trivial⟩

/-- C7: the three samplers built by `_load_model` are configured with the
declared spawn rectangles (cube x ∈ [−0.05, 0], stick x ∈ [−0.2, −0.08],
goal x ∈ [0.07, 0.12], all y ∈ [−0.1, 0.1]), rotation 0, both validity
checks enabled, reference origin equal to the table offset and z-offset
0.001; every position they draw lies within the declared rectangle offset
by the table's reference origin, 0.001 above the table. -/
theorem samplers_configuration_and_bounds :
    (mkCubeSampler.x_range = (-0.05, 0) ∧ mkCubeSampler.y_range = (-0.1, 0.1) ∧
      mkStickSampler.x_range = (-0.2, -0.08) ∧ mkStickSampler.y_range = (-0.1, 0.1) ∧
      mkGoalSampler.x_range = (0.07, 0.12) ∧ mkGoalSampler.y_range = (-0.1, 0.1)) ∧
    (mkCubeSampler.rotation = 0 ∧ mkStickSampler.rotation = 0 ∧
      mkGoalSampler.rotation = 0) ∧
    (mkCubeSampler.ensure_object_boundary_in_range = true ∧
      mkCubeSampler.ensure_valid_placement = true ∧
      mkStickSampler.ensure_object_boundary_in_range = true ∧
      mkStickSampler.ensure_valid_placement = true ∧
      mkGoalSampler.ensure_object_boundary_in_range = true ∧
      mkGoalSampler.ensure_valid_placement = true) ∧
    (mkCubeSampler.reference_pos = table_offset ∧
      mkStickSampler.reference_pos = table_offset ∧
      mkGoalSampler.reference_pos = table_offset) ∧
    (mkCubeSampler.z_offset = 0.001 ∧ mkStickSampler.z_offset = 0.001 ∧
      mkGoalSampler.z_offset = 0.001) ∧
    (∀ u v : ℝ, 0 ≤ u → u ≤ 1 → 0 ≤ v → v ≤ 1 →
      (table_offset.x + -0.05 ≤ (mkCubeSampler.samplePos u v).x ∧
        (mkCubeSampler.samplePos u v).x ≤ table_offset.x + 0 ∧
        table_offset.y + -0.1 ≤ (mkCubeSampler.samplePos u v).y ∧
        (mkCubeSampler.samplePos u v).y ≤ table_offset.y + 0.1 ∧
        (mkCubeSampler.samplePos u v).z = table_offset.z + 0.001) ∧
      (table_offset.x + -0.2 ≤ (mkStickSampler.samplePos u v).x ∧
        (mkStickSampler.samplePos u v).x ≤ table_offset.x + -0.08 ∧
        table_offset.y + -0.1 ≤ (mkStickSampler.samplePos u v).y ∧
        (mkStickSampler.samplePos u v).y ≤ table_offset.y + 0.1 ∧
        (mkStickSampler.samplePos u v).z = table_offset.z + 0.001) ∧
      (table_offset.x + 0.07 ≤ (mkGoalSampler.samplePos u v).x ∧
        (mkGoalSampler.samplePos u v).x ≤ table_offset.x + 0.12 ∧
        table_offset.y + -0.1 ≤ (mkGoalSampler.samplePos u v).y ∧
        (mkGoalSampler.samplePos u v).y ≤ table_offset.y + 0.1 ∧
        (mkGoalSampler.samplePos u v).z = table_offset.z + 0.001)) := by
  refine ⟨⟨rfl, rfl, rfl, rfl, rfl, rfl⟩, ⟨rfl, rfl, rfl⟩,
    ⟨rfl, rfl, rfl, rfl, rfl, rfl⟩, ⟨rfl, rfl, rfl⟩, ⟨rfl, rfl, rfl⟩, ?_⟩
  intro u v hu0 hu1 hv0 hv1
  have hcube := samplePos_in_ranges mkCubeSampler hu0 hu1 hv0 hv1
    (by norm_num [mkCubeSampler, CUBE_SPAWN_AREA])
    (by norm_num [mkCubeSampler, CUBE_SPAWN_AREA])
  have hstick := samplePos_in_ranges mkStickSampler hu0 hu1 hv0 hv1
    (by norm_num [mkStickSampler, STICK_SPAWN_AREA])
    (by norm_num [mkStickSampler, STICK_SPAWN_AREA])
  have hgoal := samplePos_in_ranges mkGoalSampler hu0 hu1 hv0 hv1
    (by norm_num [mkGoalSampler, GOAL_SPAWN_AREA])
    (by norm_num [mkGoalSampler, GOAL_SPAWN_AREA])
  exact ⟨hcube, hstick, hgoal⟩

/-- C8: the `stick_quat` sensor reorders the stick body's quaternion from
the simulator's native scalar-first (w, x, y, z) buffer to the
vector-first (x, y, z, w) convention. -/
theorem stick_quat_reorders (env : EnvRefs) (st : SimState) (w x y z : ℝ)
    (h : st.body_xquat env.stick_body_id = ⟨w, x, y, z⟩) :
    stick_quat env st = ⟨x, y, z, w⟩ := by
  simp [stick_quat, convert_quat, h]

/-- C8 witness: on a concrete state whose stick quaternion buffer is
(1, 2, 3, 4) scalar-first, the sensor returns (2, 3, 4, 1). -/
theorem stick_quat_reorders_witness :
    stQ.body_xquat envW.stick_body_id = ⟨1, 2, 3, 4⟩ ∧
      stick_quat envW stQ = ⟨2, 3, 4, 1⟩ :=
  ⟨rfl, stick_quat_reorders envW stQ 1 2 3 4 rfl⟩

/-- C9: when an initializer already exists, `_load_model` reuses it: the
result is the same sampler with only its object list repopulated to the
newly created object — name, ranges, rotation, validity flags, reference
position and z-offset are preserved — and no fresh sampler replaces it;
the fresh sampler is used only when no initializer exists. -/
theorem load_model_sampler_reuse (s fresh : UniformRandomSampler) (obj : String) :
    (load_model_sampler (some s) fresh obj = { s with mujoco_objects := [obj] }) ∧
    ((load_model_sampler (some s) fresh obj).name = s.name) ∧
    ((load_model_sampler (some s) fresh obj).x_range = s.x_range) ∧
    ((load_model_sampler (some s) fresh obj).y_range = s.y_range) ∧
    ((load_model_sampler (some s) fresh obj).rotation = s.rotation) ∧
    ((load_model_sampler (some s) fresh obj).ensure_object_boundary_in_range
      = s.ensure_object_boundary_in_range) ∧
    ((load_model_sampler (some s) fresh obj).ensure_valid_placement
      = s.ensure_valid_placement) ∧
    ((load_model_sampler (some s) fresh obj).reference_pos = s.reference_pos) ∧
    ((load_model_sampler (some s) fresh obj).z_offset = s.z_offset) ∧
    ((load_model_sampler (some s) fresh obj).mujoco_objects = [obj]) ∧
    (load_model_sampler none fresh obj = fresh) :=
  ⟨rfl, rfl, rfl, rfl, rfl, rfl, rfl, rfl, rfl, rfl, rfl⟩

end StickPush
